import Mathlib

/-!
A shallow embedding of the per-module event-processing runtime of
bbot/modules/base.py (class BaseModule): the two-phase acceptance filter,
the batch collector, the incoming-queue and error-state machinery, the
bounded emission gate, and the setup/cleanup lifecycle steps.
-/

/-- The fields of an event that the module-side checks read.
    sourceType models getattr(event.source, "type", "") and
    moduleName models str(event.module). -/
structure Event where
  type : String
  tags : List String
  scope_distance : Int
  sourceType : String
  moduleName : String
  deriving DecidableEq, Repr

/-- An item on a module's incoming queue: the Python queue mixes real
    events with raw strings (the control tokens "FINISHED" / "REPORT",
    or any other stray string). -/
inductive QItem where
  | str (s : String)
  | ev (e : Event)
  deriving DecidableEq, Repr

/-- The per-module attributes read by the acceptance filter, together with
    the scan attribute scope_search_distance that max_scope_distance reads.
    scope_distance_modifier = Option.none models the Python None sentinel.
    watched_events models both the watched_events list and the default
    get_watched_events() (which is set(watched_events)); membership is all
    that the code tests. -/
structure ModuleCfg where
  name : String
  watched_events : List String
  target_only : Bool
  in_scope_only : Bool
  scope_distance_modifier : Option Int
  scope_search_distance : Int
  deriving DecidableEq, Repr

/-- The outcome of one call to the user predicate filter_event:
    it returns a boolean, or raises (exc carries the message). -/
inductive FilterOutcome where
  | ok (b : Bool)
  | exc (msg : String)
  deriving DecidableEq, Repr

/-- The max_scope_distance property, with the non-None
    scope_distance_modifier passed explicitly: the property is only read
    by _event_postcheck under "scope_distance_modifier is not None"
    (with a None modifier and neither scope flag set, the Python property
    would raise a TypeError before returning). -/
def max_scope_distance (m : ModuleCfg) (k : Int) : Int :=
  if m.in_scope_only = true ∨ m.target_only = true then 0
  else max 0 (m.scope_search_distance + k)

/-- _event_precheck: checks safe to run before DNS resolution.
    The Python reasons are f-strings; the embedded strings render the
    interpolations with toString. -/
def _event_precheck (m : ModuleCfg) (x : QItem) : Bool × String :=
  match x with
  | .str s =>
    if s = "FINISHED" ∨ s = "REPORT" then (true, "")
    else (false, "string value \"" ++ s ++ "\" is invalid")
  | .ev e =>
    if ¬ ("*" ∈ m.watched_events ∨ e.type ∈ m.watched_events) then
      (false, "its type is not in watched_events")
    else if m.target_only = true ∧ "target" ∉ e.tags then
      (false, "it did not meet target_only filter criteria")
    else if e.sourceType = "IP_RANGE" ∧ e.type = "IP_ADDRESS"
        ∧ e.moduleName = "speculate" ∧ m.name ≠ "speculate"
        ∧ "IP_RANGE" ∈ m.watched_events ∧ "IP_ADDRESS" ∈ m.watched_events then
      (false, "module consumes IP ranges directly")
    else (true, "")

/-- The custom-filtering tail of _event_postcheck: filter_event returning
    False rejects; an exception is logged and control falls through to the
    final return True (fail-open). The Python reason interpolates
    str(event); the embedding renders that placeholder as "event". -/
def _postcheck_custom (filter : Event → FilterOutcome) (e : Event) : Bool × String :=
  match filter e with
  | .ok false => (false, "event did not meet custom filter criteria")
  | .ok true => (true, "")
  | .exc _ => (true, "")

/-- _event_postcheck: checks run after DNS resolution; strings (control
    tokens) are accepted outright. -/
def _event_postcheck (m : ModuleCfg) (filter : Event → FilterOutcome) (x : QItem) :
    Bool × String :=
  match x with
  | .str _ => (true, "")
  | .ev e =>
    if m.in_scope_only = true ∧ 0 < e.scope_distance then
      (false, "it did not meet in_scope_only filter criteria")
    else
      match m.scope_distance_modifier with
      | some k =>
        if e.scope_distance < 0 then
          (false, "its scope_distance (" ++ toString e.scope_distance ++ ") is invalid.")
        else if max_scope_distance m k < e.scope_distance then
          (false, "its scope_distance (" ++ toString e.scope_distance
            ++ ") exceeds the maximum allowed by the scan ("
            ++ toString m.scope_search_distance ++ ") + the module ("
            ++ toString k ++ ") == " ++ toString (max_scope_distance m k))
        else _postcheck_custom filter e
      | none => _postcheck_custom filter e

/-- _filter_event: the pre-check, then (unless precheck_only or the
    pre-check already rejected) the post-check. -/
def _filter_event (m : ModuleCfg) (filter : Event → FilterOutcome) (x : QItem)
    (precheck_only : Bool) : Bool × String :=
  let pr := _event_precheck m x
  if pr.1 = true ∧ precheck_only = false then _event_postcheck m filter x
  else pr

/-- The events_waiting property, as a pure drain of a queue snapshot:
    fuel is int(batch_size) (the local variable left), the drain stops when
    left reaches 0 or the queue raises Empty. Strings seen during the drain
    set the finish/report flags when they equal the tokens and never
    decrement left; non-strings are appended and decrement left.
    Returns (events, finish, report, remaining queue). -/
def events_waiting : Nat → List QItem → List Event × Bool × Bool × List QItem
  | _, [] => ([], false, false, [])
  | 0, item :: rest => ([], false, false, item :: rest)
  | l + 1, QItem.str s :: rest =>
    let r := events_waiting (l + 1) rest
    (r.1, (s = "FINISHED" : Bool) || r.2.1, (s = "REPORT" : Bool) || r.2.2.1, r.2.2.2)
  | l + 1, QItem.ev e :: rest =>
    let r := events_waiting l rest
    (e :: r.1, r.2.1, r.2.2.1, r.2.2.2)

/-- The callback chosen by _handle_batch from the drained tokens
    (self.finish or self.report). -/
inductive TokenCallback where
  | finish
  | report
  deriving DecidableEq, Repr

/-- _handle_batch over a queue snapshot. Output:
    (return value, the task submitted to the internal pool — the batch of
    events plus the chained on_finish_callback — or none when nothing was
    submitted, the queue left behind). num_queued_events is the queue
    length; the _batch_idle reset has no observable effect here. -/
def _handle_batch (batch_size : Nat) (force : Bool) (q : List QItem) :
    Bool × Option (List Event × Option TokenCallback) × List QItem :=
  if 0 < q.length ∧ (force = true ∨ batch_size ≤ q.length) then
    let r := events_waiting batch_size q
    let on_finish_callback : Option TokenCallback :=
      if r.2.1 then some TokenCallback.finish
      else if r.2.2.1 then some TokenCallback.report
      else none
    if r.1 ≠ [] then (true, some (r.1, on_finish_callback), r.2.2.2)
    else (false, none, r.2.2.2)
  else (false, none, q)

/-- The _event_queue slot: Python None before lazy creation, a live
    SimpleQueue (with its contents), or the disarmed sentinel False set by
    set_error_state. -/
inductive QueueHandle where
  | uninit
  | armed (q : List QItem)
  | disarmed
  deriving DecidableEq, Repr

/-- A registered cleanup callback: its name and whether callable(callback)
    holds (the loop in _cleanup skips non-callables). -/
structure CleanupCB where
  cbname : String
  callable : Bool
  deriving DecidableEq, Repr

/-- The mutable per-module runtime state the modelled operations touch. -/
structure ModuleState where
  errored : Bool
  event_queue : QueueHandle
  cleanedup : Bool
  cleanup_callbacks : List CleanupCB
  deriving DecidableEq, Repr

/-- Reading the event_queue property lazily creates the queue, so after
    any access the slot is never None. -/
def event_queue_access (m : ModuleState) : ModuleState :=
  match m.event_queue with
  | QueueHandle.uninit => { m with event_queue := QueueHandle.armed [] }
  | _ => m

/-- set_error_state: on the first call marks errored, then (the truthiness
    test "if self.event_queue" goes through the lazily-creating property)
    drains the queue item by item and sets the slot to the disarmed
    sentinel. Later calls only log. -/
def set_error_state (m : ModuleState) : ModuleState :=
  if m.errored then m
  else
    let m1 := event_queue_access { m with errored := true }
    match m1.event_queue with
    | QueueHandle.armed _ => { m1 with event_queue := QueueHandle.disarmed }
    | _ => m1

/-- queue_event: the guard "self.event_queue is not None and not
    self.errored" first goes through the property (which lazily creates
    the queue, so its value is never None) and therefore reduces to
    "not self.errored"; then the full filter runs and, unless it rejected
    with a nonempty reason, the item is enqueued. The put on a disarmed
    slot is unreachable because disarming always sets errored first. -/
def queue_event (cfg : ModuleCfg) (filter : Event → FilterOutcome)
    (m : ModuleState) (x : QItem) : ModuleState :=
  let m1 := event_queue_access m
  if m1.errored then m1
  else
    let ar := _filter_event cfg filter x false
    if ar.1 = false ∧ ar.2 ≠ "" then m1
    else
      match m1.event_queue with
      | QueueHandle.armed q => { m1 with event_queue := QueueHandle.armed (q ++ [x]) }
      | _ => m1

/-- _cleanup: on the first call flips _cleanedup and runs, through the
    catch harness with _force=True, self.cleanup followed by each callable
    entry of cleanup_callbacks in order. Output: the new state and the log
    of harness invocations as (callback name, _force flag) pairs. -/
def _cleanup (m : ModuleState) : ModuleState × List (String × Bool) :=
  if m.cleanedup then (m, [])
  else
    ({ m with cleanedup := true },
      ((CleanupCB.mk "cleanup" true :: m.cleanup_callbacks).filterMap
        (fun c => if c.callable then some (c.cbname, true) else none)))

/-- Calling _cleanup n times in a row, concatenating the invocation logs. -/
def cleanupN : Nat → ModuleState → ModuleState × List (String × Bool)
  | 0, m => (m, [])
  | n + 1, m =>
    let r := _cleanup m
    let r2 := cleanupN n r.1
    (r2.1, r.2 ++ r2.2)

/-- The status_codes table of _setup, over the three well-typed
    setup() statuses False / None / True. -/
def status_codes : Option Bool → String
  | some false => "hard-fail"
  | none => "soft-fail"
  | some true => "success"

/-- An exception escaping the user setup(): a WordlistError or any other
    exception, each carrying its message. -/
inductive SetupExc where
  | wordlist (msg : String)
  | other (msg : String)
  deriving DecidableEq, Repr

/-- A value returned by the user setup(): a 2-tuple (status, msg), or a
    bare status (True / False / None per the documented contract). -/
inductive SetupResult where
  | single (b : Option Bool)
  | pair (b : Option Bool) (msg : String)
  deriving DecidableEq, Repr

/-- _setup: status starts at False; a normal return is unpacked (a bare
    status looks its message up in status_codes); an exception calls
    set_error_state, coerces a WordlistError to the soft-fail status None
    (any other exception leaves status at False), and uses the exception
    message. Always returns the (status, message) pair. -/
def _setup (m : ModuleState) (outcome : Except SetupExc SetupResult) :
    ModuleState × Option Bool × String :=
  match outcome with
  | Except.ok (SetupResult.pair b msg) => (m, b, msg)
  | Except.ok (SetupResult.single b) => (m, b, status_codes b)
  | Except.error exc =>
    let m1 := set_error_state m
    match exc with
    | SetupExc.wordlist msg => (m1, none, msg)
    | SetupExc.other msg => (m1, some false, msg)

/-- One iteration of the emission loop as the environment sees it:
    the value of scan.stopping at the top of the loop, and the result of
    event.acquire_semaphore(timeout=0.1) in that iteration (read only when
    the loop continues). -/
structure EmitIter where
  stopping : Bool
  acquired : Bool
  deriving DecidableEq, Repr

/-- What one emit_event call did: whether make_event produced an event,
    whether scan.manager.emit_event was called, how many gate permits the
    producer acquired and how many it released, and whether the
    unexpected-error branch logged. -/
structure EmitResult where
  event_made : Bool
  emit_called : Bool
  permits_acquired : Nat
  permits_released : Nat
  error_logged : Bool
  deriving DecidableEq, Repr

/-- The while-loop of emit_event over a finite schedule of iterations:
    a stopping check exits with nothing held; a failed acquisition
    continues; a successful acquisition calls the orchestrator emit
    (emit_ok says whether it returns or raises; on a raise the producer
    releases the permit and logs) and then breaks either way. An exhausted
    schedule stands for a loop still waiting, with nothing held. -/
def emit_loop (emit_ok : Bool) : List EmitIter → EmitResult
  | [] => EmitResult.mk true false 0 0 false
  | it :: rest =>
    if it.stopping then EmitResult.mk true false 0 0 false
    else if it.acquired = false then emit_loop emit_ok rest
    else if emit_ok then EmitResult.mk true true 1 0 false
    else EmitResult.mk true true 1 1 true

/-- emit_event: returns at once when scan.stopping holds at entry;
    otherwise runs make_event (made is its result: none models the
    validation-failure path that returned None) and, when an event was
    made, enters the acquisition loop. -/
def emit_event (stopping_at_entry : Bool) (made : Option Event) (emit_ok : Bool)
    (sched : List EmitIter) : EmitResult :=
  if stopping_at_entry then EmitResult.mk false false 0 0 false
  else
    match made with
    | none => EmitResult.mk false false 0 0 false
    | some _ => emit_loop emit_ok sched

theorem set_error_state_errored (m : ModuleState) : (set_error_state m).errored = true := by
  obtain ⟨er, q, cu, cbs⟩ := m
  cases er <;> cases q <;> simp [set_error_state, event_queue_access]

theorem set_error_state_disarmed (m : ModuleState) (h : m.errored = false) :
    (set_error_state m).event_queue = QueueHandle.disarmed := by
  obtain ⟨er, q, cu, cbs⟩ := m
  cases er
  · cases q <;> simp [set_error_state, event_queue_access]
  · simp at h

/-- Claim C1, evaluated at the failing input: with only a FINISHED
    (respectively REPORT) token on the queue, the drain records and
    consumes the token, yet _handle_batch submits nothing to the internal
    pool — the finish/report callback is never scheduled — and returns
    False, because the submission is guarded by the batch being nonempty. -/
theorem C1_lone_token_dropped :
    events_waiting 10 [QItem.str "FINISHED"] = ([], true, false, [])
    ∧ _handle_batch 10 true [QItem.str "FINISHED"] = (false, none, [])
    ∧ events_waiting 10 [QItem.str "REPORT"] = ([], false, true, [])
    ∧ _handle_batch 10 true [QItem.str "REPORT"] = (false, none, []) :=
  ⟨rfl, rfl, rfl, rfl⟩

/-- Claim C6 (counterexample): the pre-check rejects the stray string
    "foo", but the reason it reports is the rendered f-string, not the
    literal "invalid string value" stated by the claim. -/
theorem C6_counterexample :
    (_event_precheck (ModuleCfg.mk "base" [] false false (some (-1)) 1) (QItem.str "foo")).1
      = false
    ∧ (_event_precheck (ModuleCfg.mk "base" [] false false (some (-1)) 1) (QItem.str "foo")).2
      = "string value \"foo\" is invalid"
    ∧ (_event_precheck (ModuleCfg.mk "base" [] false false (some (-1)) 1) (QItem.str "foo")).2
      ≠ "invalid string value" := by
  decide

/-- Claim C6 (amended): the pre-check accepts the tokens FINISHED and
    REPORT unconditionally; rejects every other string s with the reason
    string value "s" is invalid (rather than the literal phrase
    "invalid string value"); rejects any event whose type is not in the
    watched set when the watched set does not contain the wildcard; and
    under target_only rejects any event whose tags lack "target". -/
theorem C6_precheck (m : ModuleCfg) (s : String) (e : Event) :
    _event_precheck m (QItem.str "FINISHED") = (true, "")
    ∧ _event_precheck m (QItem.str "REPORT") = (true, "")
    ∧ (s ≠ "FINISHED" → s ≠ "REPORT" →
        _event_precheck m (QItem.str s)
          = (false, "string value \"" ++ s ++ "\" is invalid"))
    ∧ ("*" ∉ m.watched_events → e.type ∉ m.watched_events →
        (_event_precheck m (QItem.ev e)).1 = false)
    ∧ (m.target_only = true → "target" ∉ e.tags →
        (_event_precheck m (QItem.ev e)).1 = false) := by
  refine ⟨by simp [_event_precheck], by simp [_event_precheck], ?_, ?_, ?_⟩
  · intro h1 h2
    simp [_event_precheck, h1, h2]
  · intro h1 h2
    simp [_event_precheck, h1, h2]
  · intro h1 h2
    simp only [_event_precheck]
    split_ifs <;> simp_all

/-- Claim C6 witness: the amended pre-check facts evaluated at concrete
    inputs, every hypothesis discharged. -/
theorem C6_precheck_witness :
    _event_precheck (ModuleCfg.mk "base" ["DNS_NAME"] true false (some (-1)) 1)
      (QItem.str "FINISHED") = (true, "")
    ∧ _event_precheck (ModuleCfg.mk "base" ["DNS_NAME"] true false (some (-1)) 1)
      (QItem.str "bogus") = (false, "string value \"bogus\" is invalid")
    ∧ (_event_precheck (ModuleCfg.mk "base" ["DNS_NAME"] true false (some (-1)) 1)
      (QItem.ev (Event.mk "URL" [] 0 "" "host"))).1 = false
    ∧ (_event_precheck (ModuleCfg.mk "base" ["DNS_NAME"] true false (some (-1)) 1)
      (QItem.ev (Event.mk "DNS_NAME" ["spider"] 0 "" "host"))).1 = false := by
  refine ⟨(C6_precheck _ "bogus" (Event.mk "URL" [] 0 "" "host")).1, ?_, ?_, ?_⟩
  · exact (C6_precheck _ "bogus" (Event.mk "URL" [] 0 "" "host")).2.2.1
      (by decide) (by decide)
  · exact (C6_precheck _ "bogus" (Event.mk "URL" [] 0 "" "host")).2.2.2.1
      (by decide) (by decide)
  · exact (C6_precheck _ "bogus" (Event.mk "DNS_NAME" ["spider"] 0 "" "host")).2.2.2.2
      rfl (by decide)

/-- Claim C7 (counterexample): all five conditions of the claim hold
    (source type IP_RANGE, event type IP_ADDRESS, producer "speculate",
    module named otherwise, both types watched), yet because the module is
    target_only and the event is untagged the pre-check rejects earlier,
    with the target_only reason, not "module consumes IP ranges directly". -/
theorem C7_counterexample :
    (let m := ModuleCfg.mk "portscanner" ["IP_RANGE", "IP_ADDRESS"] true false (some (-1)) 1
     let e := Event.mk "IP_ADDRESS" [] 0 "IP_RANGE" "speculate"
     (e.sourceType = "IP_RANGE" ∧ e.type = "IP_ADDRESS" ∧ e.moduleName = "speculate"
        ∧ m.name ≠ "speculate"
        ∧ "IP_RANGE" ∈ m.watched_events ∧ "IP_ADDRESS" ∈ m.watched_events)
     ∧ _event_precheck m (QItem.ev e) = (false, "it did not meet target_only filter criteria")
     ∧ (_event_precheck m (QItem.ev e)).2 ≠ "module consumes IP ranges directly") := by
  decide

/-- Claim C7 (amended): the pre-check rejects with reason "module consumes
    IP ranges directly" exactly when the five conditions of the claim hold
    and, in addition, the event survives the earlier target_only check
    (i.e. when target_only is set its tags contain "target"). -/
theorem C7_collision (m : ModuleCfg) (e : Event) :
    _event_precheck m (QItem.ev e) = (false, "module consumes IP ranges directly")
    ↔ (e.sourceType = "IP_RANGE" ∧ e.type = "IP_ADDRESS" ∧ e.moduleName = "speculate"
      ∧ m.name ≠ "speculate"
      ∧ "IP_RANGE" ∈ m.watched_events ∧ "IP_ADDRESS" ∈ m.watched_events
      ∧ (m.target_only = true → "target" ∈ e.tags)) := by
  simp only [_event_precheck]
  split_ifs with h1 h2 h3
  · refine iff_of_false (by simp) ?_
    rintro ⟨hs, ht, hm, hn, hr, ha, htag⟩
    exact h2.2 (htag h2.1)
  · refine iff_of_true rfl
      ⟨h3.1, h3.2.1, h3.2.2.1, h3.2.2.2.1, h3.2.2.2.2.1, h3.2.2.2.2.2, ?_⟩
    intro hto
    by_contra hnt
    exact h2 ⟨hto, hnt⟩
  · refine iff_of_false (by simp) ?_
    rintro ⟨hs, ht, hm, hn, hr, ha, htag⟩
    exact h3 ⟨hs, ht, hm, hn, hr, ha⟩
  · refine iff_of_false (by simp) ?_
    rintro ⟨hs, ht, hm, hn, hr, ha, htag⟩
    exact h1 (Or.inr (by rw [ht]; exact ha))

/-- Claim C7 witness: the amended equivalence instantiated at a module
    that is not target_only, in the rejecting direction. -/
theorem C7_collision_witness :
    _event_precheck (ModuleCfg.mk "portscanner" ["IP_RANGE", "IP_ADDRESS"] false false (some 0) 1)
      (QItem.ev (Event.mk "IP_ADDRESS" [] 0 "IP_RANGE" "speculate"))
      = (false, "module consumes IP ranges directly") :=
  (C7_collision _ _).mpr (by decide)

/-- Claim C10: when the user setup() raises, _setup puts the module in the
    errored state (so its queue is drained and disarmed), coerces a
    WordlistError to the soft-fail status None while any other exception
    leaves the initial hard-fail status False, and still returns a
    (status, message) pair rather than propagating. -/
theorem C10_setup_errors (m : ModuleState) (exc : SetupExc) (h : m.errored = false) :
    (_setup m (Except.error exc)).1.errored = true
    ∧ (_setup m (Except.error exc)).1.event_queue = QueueHandle.disarmed
    ∧ (∀ msg, exc = SetupExc.wordlist msg → (_setup m (Except.error exc)).2.1 = none)
    ∧ (∀ msg, exc = SetupExc.other msg
        → (_setup m (Except.error exc)).2.1 = some false) := by
  have he := set_error_state_errored m
  have hd := set_error_state_disarmed m h
  cases exc <;> simp [_setup, he, hd]

/-- Claim C10 witness: a WordlistError raised out of setup() on a fresh
    module state, evaluated concretely. -/
theorem C10_setup_errors_witness :
    (_setup (ModuleState.mk false QueueHandle.uninit false [])
      (Except.error (SetupExc.wordlist "wordlist download failed"))).1.errored = true
    ∧ (_setup (ModuleState.mk false QueueHandle.uninit false [])
      (Except.error (SetupExc.wordlist "wordlist download failed"))).2.1 = none := by
  refine ⟨(C10_setup_errors _ _ rfl).1, ?_⟩
  exact (C10_setup_errors (ModuleState.mk false QueueHandle.uninit false [])
    (SetupExc.wordlist "wordlist download failed") rfl).2.2.1 _ rfl

theorem set_error_state_of_errored (m : ModuleState) (h : m.errored = true) :
    set_error_state m = m := by
  unfold set_error_state
  simp [h]

theorem queue_event_not_enqueue (cfg : ModuleCfg) (filter : Event → FilterOutcome)
    (m : ModuleState) (x : QItem) (h : m.errored = true)
    (hq : m.event_queue = QueueHandle.disarmed) :
    queue_event cfg filter m x = m := by
  unfold queue_event event_queue_access
  rw [hq]
  simp [h]

theorem set_error_state_cleanup_fields (m : ModuleState) :
    (set_error_state m).cleanedup = m.cleanedup
    ∧ (set_error_state m).cleanup_callbacks = m.cleanup_callbacks := by
  obtain ⟨er, q, cu, cbs⟩ := m
  cases er <;> cases q <;> simp [set_error_state, event_queue_access]

theorem cleanup_log_eq (m m2 : ModuleState) (hc : m2.cleanedup = m.cleanedup)
    (hb : m2.cleanup_callbacks = m.cleanup_callbacks) :
    (_cleanup m2).2 = (_cleanup m).2 := by
  unfold _cleanup
  rw [hc, hb]
  split_ifs <;> rfl

/-- Claim C2: set_error_state is idempotent, marks errored, leaves the
    incoming queue drained and disarmed; afterwards queue_event is a
    complete no-op on the state (in particular it never enqueues), the
    errored flag stays true, and _cleanup still performs exactly the
    callback runs it would have performed before the error. -/
theorem C2_error_state_final (m : ModuleState) (cfg : ModuleCfg)
    (filter : Event → FilterOutcome) (x : QItem) (h : m.errored = false) :
    set_error_state (set_error_state m) = set_error_state m
    ∧ (set_error_state m).errored = true
    ∧ (set_error_state m).event_queue = QueueHandle.disarmed
    ∧ queue_event cfg filter (set_error_state m) x = set_error_state m
    ∧ (queue_event cfg filter (set_error_state m) x).errored = true
    ∧ (_cleanup (set_error_state m)).2 = (_cleanup m).2 := by
  have he := set_error_state_errored m
  have hd := set_error_state_disarmed m h
  have hq := queue_event_not_enqueue cfg filter (set_error_state m) x he hd
  refine ⟨set_error_state_of_errored _ he, he, hd, hq, ?_, ?_⟩
  · rw [hq]
    exact he
  · exact cleanup_log_eq m (set_error_state m)
      (set_error_state_cleanup_fields m).1 (set_error_state_cleanup_fields m).2

/-- Claim C2 witness: the error-state facts evaluated on a concrete module
    state holding one queued event. -/
theorem C2_error_state_final_witness :
    (set_error_state (ModuleState.mk false
        (QueueHandle.armed [QItem.ev (Event.mk "DNS_NAME" [] 0 "" "host")]) false [])).errored
      = true
    ∧ queue_event (ModuleCfg.mk "base" ["DNS_NAME"] false false (some (-1)) 1)
        (fun _ => FilterOutcome.ok true)
        (set_error_state (ModuleState.mk false
          (QueueHandle.armed [QItem.ev (Event.mk "DNS_NAME" [] 0 "" "host")]) false []))
        (QItem.ev (Event.mk "DNS_NAME" [] 0 "" "host"))
      = set_error_state (ModuleState.mk false
          (QueueHandle.armed [QItem.ev (Event.mk "DNS_NAME" [] 0 "" "host")]) false []) := by
  refine ⟨?_, ?_⟩
  · exact (C2_error_state_final (ModuleState.mk false
      (QueueHandle.armed [QItem.ev (Event.mk "DNS_NAME" [] 0 "" "host")]) false [])
      (ModuleCfg.mk "base" ["DNS_NAME"] false false (some (-1)) 1)
      (fun _ => FilterOutcome.ok true)
      (QItem.ev (Event.mk "DNS_NAME" [] 0 "" "host")) rfl).2.1
  · exact (C2_error_state_final (ModuleState.mk false
      (QueueHandle.armed [QItem.ev (Event.mk "DNS_NAME" [] 0 "" "host")]) false [])
      (ModuleCfg.mk "base" ["DNS_NAME"] false false (some (-1)) 1)
      (fun _ => FilterOutcome.ok true)
      (QItem.ev (Event.mk "DNS_NAME" [] 0 "" "host")) rfl).2.2.2.1

theorem cleanupN_cleanedup (n : Nat) (m : ModuleState) (h : m.cleanedup = true) :
    cleanupN n m = (m, []) := by
  induction n with
  | zero => rfl
  | succ k ih => simp [cleanupN, _cleanup, h, ih]

theorem filterMap_callable (l : List CleanupCB) (h : ∀ c ∈ l, c.callable = true) :
    l.filterMap (fun c => if c.callable then some (c.cbname, true) else none)
      = l.map (fun c => (c.cbname, true)) := by
  induction l with
  | nil => rfl
  | cons a t ih =>
    have ha := h a (by simp)
    simp [List.filterMap_cons, ha, ih (fun c hc => h c (by simp [hc]))]

/-- Claim C9: for any N ≥ 1, N successive _cleanup calls on a module not
    yet cleaned up run, through the harness with _force=true, the user
    cleanup followed by each (callable) registered callback in order,
    each exactly once. -/
theorem C9_cleanup_once (n : Nat) (m : ModuleState)
    (h1 : 1 ≤ n) (h2 : m.cleanedup = false)
    (h3 : ∀ c ∈ m.cleanup_callbacks, c.callable = true) :
    (cleanupN n m).2
      = ("cleanup", true) :: m.cleanup_callbacks.map (fun c => (c.cbname, true)) := by
  obtain ⟨k, rfl⟩ : ∃ k, n = k + 1 := ⟨n - 1, (Nat.succ_pred_eq_of_pos h1).symm⟩
  simp [cleanupN, _cleanup, h2, cleanupN_cleanedup, filterMap_callable _ h3]

/-- Claim C9 witness: two _cleanup calls on a fresh state with one
    registered callback run the user cleanup and that callback once. -/
theorem C9_cleanup_once_witness :
    (cleanupN 2 (ModuleState.mk false QueueHandle.uninit false
      [CleanupCB.mk "close_file" true])).2
      = [("cleanup", true), ("close_file", true)] := by
  have h := C9_cleanup_once 2
    (ModuleState.mk false QueueHandle.uninit false [CleanupCB.mk "close_file" true])
    (by decide) rfl (by decide)
  simpa using h

theorem postcheck_scope_reject (m : ModuleCfg) (filter : Event → FilterOutcome)
    (e : Event) (k : Int) (hk : m.scope_distance_modifier = some k)
    (h : e.scope_distance < 0 ∨ max_scope_distance m k < e.scope_distance) :
    (_event_postcheck m filter (QItem.ev e)).1 = false := by
  simp only [_event_postcheck, hk]
  split_ifs with h1 h2 h3
  · rfl
  · rfl
  · rfl
  · exfalso
    omega

/-- Claim C3: when scope_distance_modifier is an integer, the post-check
    accepts an event only if its scope_distance lies between 0 and the
    maximum — which is 0 under in_scope_only or target_only, and
    max(0, scope_search_distance + modifier) otherwise; under
    in_scope_only any positive scope_distance is rejected; and with the
    None modifier the scope-distance cap is not consulted at all (only the
    in_scope_only test and the custom predicate decide). -/
theorem C3_scope_algebra (m : ModuleCfg) (filter : Event → FilterOutcome) (e : Event) :
    (∀ k, m.scope_distance_modifier = some k →
      (_event_postcheck m filter (QItem.ev e)).1 = true →
      0 ≤ e.scope_distance
        ∧ e.scope_distance ≤ (if m.in_scope_only = true ∨ m.target_only = true then 0
            else max 0 (m.scope_search_distance + k)))
    ∧ (m.in_scope_only = true → 0 < e.scope_distance →
        (_event_postcheck m filter (QItem.ev e)).1 = false)
    ∧ (m.scope_distance_modifier = none →
        ((_event_postcheck m filter (QItem.ev e)).1 = true
          ↔ (¬(m.in_scope_only = true ∧ 0 < e.scope_distance)
            ∧ filter e ≠ FilterOutcome.ok false))) := by
  refine ⟨?_, ?_, ?_⟩
  · intro k hk hacc
    have hrej := postcheck_scope_reject m filter e k hk
    constructor
    · by_contra hc
      rw [hrej (Or.inl (by omega))] at hacc
      exact absurd hacc (by simp)
    · by_contra hc
      rw [hrej (Or.inr (not_le.mp hc))] at hacc
      exact absurd hacc (by simp)
  · intro hi hpos
    simp [_event_postcheck, hi, hpos]
  · intro hn
    simp only [_event_postcheck, hn]
    split_ifs with hsc
    · simp [hsc]
    · simp only [hsc, not_false_iff, true_and]
      cases hf : filter e with
      | ok b => cases b <;> simp [_postcheck_custom, hf]
      | exc msg => simp [_postcheck_custom, hf]

/-- Claim C3 witness: the scope bound at an accepted event two steps out,
    and an in_scope_only rejection, evaluated concretely. -/
theorem C3_scope_algebra_witness :
    (let m := ModuleCfg.mk "m" ["DNS_NAME"] false false (some 1) 1
     let e := Event.mk "DNS_NAME" [] 2 "" "host"
     0 ≤ e.scope_distance
       ∧ e.scope_distance ≤ (if m.in_scope_only = true ∨ m.target_only = true then 0
           else max 0 (m.scope_search_distance + 1)))
    ∧ (_event_postcheck (ModuleCfg.mk "m" ["DNS_NAME"] false true (some (-1)) 1)
        (fun _ => FilterOutcome.ok true)
        (QItem.ev (Event.mk "DNS_NAME" [] 2 "" "host"))).1 = false := by
  constructor
  · exact (C3_scope_algebra (ModuleCfg.mk "m" ["DNS_NAME"] false false (some 1) 1)
      (fun _ => FilterOutcome.ok true) (Event.mk "DNS_NAME" [] 2 "" "host")).1 1 rfl
      (by decide)
  · exact (C3_scope_algebra (ModuleCfg.mk "m" ["DNS_NAME"] false true (some (-1)) 1)
      (fun _ => FilterOutcome.ok true) (Event.mk "DNS_NAME" [] 2 "" "host")).2.1 rfl
      (by decide)

/-- Claim C8: for an event that reaches the custom-predicate step (the
    scope checks pass), filter_event returning False rejects the event
    while filter_event raising is logged and the post-check accepts the
    event (fail-open). -/
theorem C8_filter_fail_open (m : ModuleCfg) (filter : Event → FilterOutcome) (e : Event)
    (h1 : ¬(m.in_scope_only = true ∧ 0 < e.scope_distance))
    (h2 : ∀ k, m.scope_distance_modifier = some k →
      0 ≤ e.scope_distance ∧ e.scope_distance ≤ max_scope_distance m k) :
    (filter e = FilterOutcome.ok false →
      _event_postcheck m filter (QItem.ev e)
        = (false, "event did not meet custom filter criteria"))
    ∧ (∀ msg, filter e = FilterOutcome.exc msg →
      _event_postcheck m filter (QItem.ev e) = (true, "")) := by
  have key : _event_postcheck m filter (QItem.ev e) = _postcheck_custom filter e := by
    cases hk : m.scope_distance_modifier with
    | none => simp [_event_postcheck, hk, h1]
    | some k =>
      have hb := h2 k hk
      simp only [_event_postcheck, hk]
      rw [if_neg h1, if_neg (not_lt.mpr hb.1), if_neg (not_lt.mpr hb.2)]
  constructor
  · intro hf
    rw [key]
    simp [_postcheck_custom, hf]
  · intro msg hf
    rw [key]
    simp [_postcheck_custom, hf]

/-- Claim C8 witness: a raising predicate on an in-scope event is treated
    as an accept. -/
theorem C8_filter_fail_open_witness :
    _event_postcheck (ModuleCfg.mk "m" ["DNS_NAME"] false false (some 0) 1)
      (fun _ => FilterOutcome.exc "boom")
      (QItem.ev (Event.mk "DNS_NAME" [] 0 "" "host")) = (true, "") :=
  (C8_filter_fail_open (ModuleCfg.mk "m" ["DNS_NAME"] false false (some 0) 1)
    (fun _ => FilterOutcome.exc "boom") (Event.mk "DNS_NAME" [] 0 "" "host")
    (by decide)
    (by
      intro k hk
      simp only [Option.some.injEq] at hk
      subst hk
      exact ⟨by decide, by decide⟩)).2 "boom" rfl

theorem emit_loop_skip (emit_ok : Bool) (pre rest : List EmitIter)
    (h : ∀ i ∈ pre, i.stopping = false ∧ i.acquired = false) :
    emit_loop emit_ok (pre ++ rest) = emit_loop emit_ok rest := by
  induction pre with
  | nil => rfl
  | cons a t ih =>
    have ha := h a (by simp)
    simp [emit_loop, ha.1, ha.2, ih (fun i hi => h i (by simp [hi]))]

/-- Claim C4: emit_event returns immediately — no event made, no emit
    call, no permit — when the scan is stopping at entry; and whenever the
    loop reaches a successful acquisition the orchestrator emit is called
    holding exactly one permit, which is released (with an error logged)
    exactly when the emit call raises, and kept — never released by the
    producer, no error — on a successful handoff. -/
theorem C4_emit_gate :
    (∀ made emit_ok sched, emit_event true made emit_ok sched
      = EmitResult.mk false false 0 0 false)
    ∧ (∀ (e : Event) (emit_ok : Bool) (pre : List EmitIter) (it : EmitIter)
        (rest : List EmitIter),
        (∀ i ∈ pre, i.stopping = false ∧ i.acquired = false) →
        it.stopping = false → it.acquired = true →
        (emit_event false (some e) emit_ok (pre ++ it :: rest)).emit_called = true
        ∧ (emit_event false (some e) emit_ok (pre ++ it :: rest)).permits_acquired = 1
        ∧ (emit_ok = true →
            (emit_event false (some e) emit_ok (pre ++ it :: rest)).permits_released = 0
            ∧ (emit_event false (some e) emit_ok (pre ++ it :: rest)).error_logged = false)
        ∧ (emit_ok = false →
            (emit_event false (some e) emit_ok (pre ++ it :: rest)).permits_released = 1
            ∧ (emit_event false (some e) emit_ok (pre ++ it :: rest)).error_logged
              = true)) := by
  constructor
  · intro made emit_ok sched
    rfl
  · intro e emit_ok pre it rest hpre hstop hacq
    have hred : emit_event false (some e) emit_ok (pre ++ it :: rest)
        = emit_loop emit_ok (it :: rest) := by
      simp [emit_event, emit_loop_skip emit_ok pre (it :: rest) hpre]
    rw [hred]
    cases emit_ok <;> simp [emit_loop, hstop, hacq]

/-- Claim C4 witness: an entry under a stopping scan, and a successful
    handoff after one failed acquisition, evaluated concretely. -/
theorem C4_emit_gate_witness :
    emit_event true none true [] = EmitResult.mk false false 0 0 false
    ∧ (emit_event false (some (Event.mk "DNS_NAME" [] 0 "" "host")) true
        ([EmitIter.mk false false] ++ EmitIter.mk false true :: [])).emit_called = true := by
  constructor
  · exact C4_emit_gate.1 none true []
  · exact (C4_emit_gate.2 (Event.mk "DNS_NAME" [] 0 "" "host") true
      [EmitIter.mk false false] (EmitIter.mk false true) []
      (by decide) rfl rfl).1

/-- Claim C5: a drain returns at most batch_size events; the drain can
    stop short of the budget only because the queue is exhausted, so
    tokens never consume budget; and for the consumed prefix of the queue
    the returned events are exactly its non-string items in order, while
    each flag records exactly whether the corresponding token string was
    observed among the consumed items. -/
theorem C5_events_waiting (n : Nat) (q : List QItem) :
    (events_waiting n q).1.length ≤ n
    ∧ ((events_waiting n q).1.length < n → (events_waiting n q).2.2.2 = [])
    ∧ ∃ d, q = d ++ (events_waiting n q).2.2.2
      ∧ (events_waiting n q).1
          = d.filterMap (fun x => match x with | QItem.str _ => none | QItem.ev e => some e)
      ∧ ((events_waiting n q).2.1 = true ↔ QItem.str "FINISHED" ∈ d)
      ∧ ((events_waiting n q).2.2.1 = true ↔ QItem.str "REPORT" ∈ d) := by
  induction q generalizing n with
  | nil =>
    refine ⟨?_, ?_, [], ?_, ?_, ?_, ?_⟩ <;> simp [events_waiting]
  | cons a t ih =>
    cases n with
    | zero =>
      refine ⟨?_, ?_, [], ?_, ?_, ?_, ?_⟩ <;> simp [events_waiting]
    | succ l =>
      cases a with
      | str s =>
        obtain ⟨ih1, ih2, d, hd, hevs, hfin, hrep⟩ := ih (l + 1)
        refine ⟨?_, ?_, QItem.str s :: d, ?_, ?_, ?_, ?_⟩
        · simpa [events_waiting] using ih1
        · simp only [events_waiting]
          intro h
          exact ih2 (by simpa using h)
        · simp only [events_waiting]
          simpa using hd
        · simp [events_waiting, List.filterMap_cons]
          exact hevs
        · by_cases hs : s = "FINISHED"
          · simp [events_waiting, hs]
          · simp [events_waiting, hs, Ne.symm hs, hfin]
        · by_cases hs : s = "REPORT"
          · simp [events_waiting, hs]
          · simp [events_waiting, hs, Ne.symm hs, hrep]
      | ev e =>
        obtain ⟨ih1, ih2, d, hd, hevs, hfin, hrep⟩ := ih l
        refine ⟨?_, ?_, QItem.ev e :: d, ?_, ?_, ?_, ?_⟩
        · simpa [events_waiting] using ih1
        · simp only [events_waiting]
          intro h
          apply ih2
          simp at h
          omega
        · simp only [events_waiting]
          simpa using hd
        · simp [events_waiting, List.filterMap_cons]
          exact hevs
        · simp [events_waiting, hfin]
        · simp [events_waiting, hrep]

/-- Claim C5 witness: a drain of a three-item queue with an interleaved
    token, evaluated concretely; the budget was not filled, so the
    early-stop consequence applies with its hypothesis discharged. -/
theorem C5_events_waiting_witness :
    (events_waiting 3 [QItem.ev (Event.mk "A" [] 0 "" ""), QItem.str "FINISHED",
        QItem.ev (Event.mk "B" [] 0 "" "")]).1.length < 3
    ∧ (events_waiting 3 [QItem.ev (Event.mk "A" [] 0 "" ""), QItem.str "FINISHED",
        QItem.ev (Event.mk "B" [] 0 "" "")]).2.2.2 = [] := by
  refine ⟨by decide, ?_⟩
  exact (C5_events_waiting 3 [QItem.ev (Event.mk "A" [] 0 "" ""), QItem.str "FINISHED",
    QItem.ev (Event.mk "B" [] 0 "" "")]).2.1 (by decide)
